import Mathlib

/-
Verification of the pellet-grill cook planner.

The repository contains three variants of the planner component:
the main one in src/src/PelletPlanner.jsx (V6, "Master Recipe Mode") and
two earlier variants (V1 and V5) in src/unnamed/part_000.  The engine of
V6 is embedded below as computePlan; the engine of the V1 variant, whose
warning rules differ, is embedded separately as computePlanV1.

Modelling conventions:
- All JavaScript numbers are modelled as exact rationals.
- Timestamps are rationals measured in minutes on an absolute timeline
  (for the concrete scenarios, minutes since midnight of the serve day).
  The date library (parseISO, addMinutes, subMinutes) is out of scope per
  the specification and is modelled as exact arithmetic on that timeline.
- The serve-time text field is modelled by ServeTimeInput: the empty
  string (falsy), a non-empty unparsable string, or a string parsing to a
  timestamp.
- Template-string warning messages are modelled structurally: each
  warning constructor carries the data interpolated into the message.
  Display-only rounding (toFixed) is presentation and not modelled.
-/

namespace PelletPlanner

/-- Meat-type keys of MEAT_PROFILES in src/src/PelletPlanner.jsx. -/
inductive MeatType
  | brisket
  | porkButt
  | ribs
  | turkey
  | chicken
deriving DecidableEq

/-- The rest field of a meat profile: { default, min, maxHold } minutes. -/
structure RestSpec where
  default : ℚ
  min : ℚ
  maxHold : ℚ
deriving DecidableEq

/-- The spritz field of a meat profile:
{ recommended, startAfter, interval, type }. -/
structure SpritzSpec where
  recommended : Bool
  startAfter : ℚ
  interval : ℚ
  liquid : String   -- named `type` in the source
deriving DecidableEq

/-- One entry of MEAT_PROFILES.  tempProfiles maps a set temperature to
the rate of that entry (the source stores { rate } records). -/
structure MeatProfile where
  label : String
  defaultWeight : ℚ
  tempProfiles : Nat → Option ℚ
  rest : RestSpec
  stallFactor : ℚ
  defaultTargetTemp : ℚ
  spritz : SpritzSpec

/-- MEAT_PROFILES of src/src/PelletPlanner.jsx (lines 7-76). -/
def MEAT_PROFILES : MeatType → MeatProfile
  | .brisket =>
    { label := "Brisket (Full Packer)"
      defaultWeight := 12
      tempProfiles := fun t =>
        if t = 225 then some 1.5 else if t = 250 then some 1.25 else
        if t = 275 then some 1.0 else Option.none
      rest := { default := 120, min := 60, maxHold := 300 }
      stallFactor := 0.65
      defaultTargetTemp := 203
      spritz := { recommended := true, startAfter := 120, interval := 60,
                  liquid := "Apple Cider Vinegar" } }
  | .porkButt =>
    { label := "Pork Shoulder / Butt"
      defaultWeight := 8
      tempProfiles := fun t =>
        if t = 225 then some 1.5 else if t = 250 then some 1.1 else
        if t = 275 then some 1.0 else Option.none
      rest := { default := 45, min := 30, maxHold := 300 }
      stallFactor := 0.60
      defaultTargetTemp := 205
      spritz := { recommended := true, startAfter := 120, interval := 60,
                  liquid := "Apple Juice/Vinegar" } }
  | .ribs =>
    { label := "Pork Ribs (Spare/Baby Back)"
      defaultWeight := 3
      tempProfiles := fun t =>
        if t = 225 then some 2.0 else if t = 250 then some 1.75 else
        if t = 275 then some 1.5 else Option.none
      rest := { default := 15, min := 10, maxHold := 60 }
      stallFactor := 0.50
      defaultTargetTemp := 200
      spritz := { recommended := true, startAfter := 90, interval := 45,
                  liquid := "Apple Cider Vinegar" } }
  | .turkey =>
    { label := "Turkey (Whole)"
      defaultWeight := 12
      tempProfiles := fun t =>
        if t = 225 then some 0.75 else if t = 250 then some 0.5 else
        if t = 275 then some 0.35 else if t = 300 then some 0.30 else
        if t = 325 then some 0.25 else Option.none
      rest := { default := 30, min := 20, maxHold := 90 }
      stallFactor := 0.80
      defaultTargetTemp := 165
      spritz := { recommended := false, startAfter := 60, interval := 45,
                  liquid := "Melted Butter" } }
  | .chicken =>
    { label := "Chicken (Whole)"
      defaultWeight := 5
      tempProfiles := fun t =>
        if t = 225 then some 0.8 else if t = 250 then some 0.6 else
        if t = 275 then some 0.5 else if t = 325 then some 0.35 else
        Option.none
      rest := { default := 15, min := 10, maxHold := 45 }
      stallFactor := 0.85
      defaultTargetTemp := 165
      spritz := { recommended := false, startAfter := 45, interval := 45,
                  liquid := "Melted Butter/Oil" } }

/-- Wrap-strategy keys of WRAP_STRATEGIES. -/
inductive WrapStrategy
  | foil_pan
  | foil
  | paper
  | none
deriving DecidableEq

/-- One entry of WRAP_STRATEGIES: { label, multiplier, desc }. -/
structure WrapInfo where
  label : String
  multiplier : ℚ
  desc : String
deriving DecidableEq

/-- WRAP_STRATEGIES of src/src/PelletPlanner.jsx (lines 78-83). -/
def WRAP_STRATEGIES : WrapStrategy → WrapInfo
  | .foil_pan => { label := "Foil Pan Covered (Braise)", multiplier := 0.95,
                   desc := "Fastest. Steams meat. Soft bark." }
  | .foil => { label := "Alum Foil (Tight Wrap)", multiplier := 1.0,
               desc := "Fast. Standard method." }
  | .paper => { label := "Butcher Paper", multiplier := 1.08,
                desc := "Good bark. Breathable." }
  | .none => { label := "No Wrap (Naked)", multiplier := 1.25,
               desc := "Max bark. Long stall." }

/-- The serveTime text input: empty string (falsy), a non-empty string
parseISO rejects (isValid false), or a string parsing to a timestamp. -/
inductive ServeTimeInput
  | empty
  | invalid (s : String)
  | valid (t : ℚ)
deriving DecidableEq

/-- The inputs state record of the V6 component (lines 103-118). -/
structure Inputs where
  meatType : MeatType
  weight : ℚ
  temp : Nat
  restTime : ℚ
  serveTime : ServeTimeInput
  prepTime : ℚ
  wrapStrategy : WrapStrategy
  wrapTemp : ℚ
  targetTemp : ℚ
  spritzEnabled : Bool
  spritzStart : ℚ
  spritzInterval : ℚ
  isSpatchcock : Bool
  fatSideUp : Bool
deriving DecidableEq

/-- isPoultry as computed in the source:
type === turkey or type === chicken. -/
def isPoultry : MeatType → Bool
  | .turkey => true
  | .chicken => true
  | _ => false

/-- handleMeatChange of src/src/PelletPlanner.jsx (lines 129-151). -/
def handleMeatChange (type : MeatType) (prev : Inputs) : Inputs :=
  let profile := MEAT_PROFILES type
  { prev with
    meatType := type
    weight := profile.defaultWeight
    restTime := profile.rest.default
    wrapStrategy := if isPoultry type then WrapStrategy.none
                    else WrapStrategy.foil_pan
    wrapTemp := 165
    targetTemp := profile.defaultTargetTemp
    spritzEnabled := if isPoultry type then true else profile.spritz.recommended
    spritzStart := profile.spritz.startAfter
    spritzInterval := profile.spritz.interval
    isSpatchcock := false
    fatSideUp := false
    temp := if type = MeatType.turkey then 275 else 250 }

/-- Rate lookup (engine step 1, lines 161-166):
the rate of tempProfiles[temp] when present, else the fallback 1.0. -/
def rateOf (i : Inputs) : ℚ :=
  ((MEAT_PROFILES i.meatType).tempProfiles i.temp).getD 1.0

/-- baseCookHours (engine step 2, lines 171-176): weight times rate,
reduced by 25 percent when spatchcocked poultry. -/
def baseCookHours (i : Inputs) : ℚ :=
  if i.isSpatchcock = true ∧ isPoultry i.meatType = true
  then (i.weight * rateOf i) * 0.75
  else i.weight * rateOf i

/-- The wrap multiplier wrapMod (line 168). -/
def wrapMod (i : Inputs) : ℚ := (WRAP_STRATEGIES i.wrapStrategy).multiplier

/-- adjustedCookHours before the spritz tax (line 179). -/
def preSpritzHours (i : Inputs) : ℚ := baseCookHours i * wrapMod i

/-- spritzCount (engine step 3, lines 182-189): the number of spritz
applications, floor of the spritz window over the interval, and 0 when
spritzing is disabled or the window is not positive. -/
def spritzCount (i : Inputs) : ℤ :=
  if i.spritzEnabled = true then
    (if 0 < preSpritzHours i * 60 - i.spritzStart
     then ⌊(preSpritzHours i * 60 - i.spritzStart) / i.spritzInterval⌋
     else 0)
  else 0

/-- spritzPenaltyHours (line 190): 15 minutes per application. -/
def spritzPenaltyHours (i : Inputs) : ℚ := ((spritzCount i : ℚ) * 15) / 60

/-- adjustedCookHours after the spritz tax (line 191). -/
def adjustedCookHours (i : Inputs) : ℚ := preSpritzHours i + spritzPenaltyHours i

/-- bufferHours (engine step 4, line 194): flat 15 percent. -/
def bufferHours (i : Inputs) : ℚ := adjustedCookHours i * 0.15

/-- totalCookMinutes (line 195). -/
def totalCookMinutes (i : Inputs) : ℚ :=
  (adjustedCookHours i + bufferHours i) * 60

/-- wrapTimingFactor (lines 206-211): the stall factor, raised by
0.005 per degree of wrapTemp above 160 when a wrap strategy is chosen. -/
def wrapTimingFactor (i : Inputs) : ℚ :=
  if i.wrapStrategy ≠ WrapStrategy.none then
    (if 0 < i.wrapTemp - 160
     then (MEAT_PROFILES i.meatType).stallFactor + (i.wrapTemp - 160) * 0.005
     else (MEAT_PROFILES i.meatType).stallFactor)
  else (MEAT_PROFILES i.meatType).stallFactor

/-- Truncation toward zero, the rounding of differenceInHours. -/
def ratTrunc (q : ℚ) : ℤ := if q < 0 then ⌈q⌉ else ⌊q⌋

/-- The spritzWindow record of a plan ({ start, end, count, type }). -/
structure SpritzWindow where
  start : ℚ
  stop : ℚ      -- named `end` in the source, a reserved word here
  count : ℤ
  liquid : String   -- named `type` in the source
deriving DecidableEq

/-- A warning pushed by an engine, modelled structurally: each
constructor carries the data its template message interpolates.
longRest is the long-rest warning of the V1 engine (its payload is the
profile label and maxHold/60 hours); turkeySafety and rubberSkin are the
two warnings of the V6 engine. -/
inductive Warning
  | longRest (label : String) (maxHoldHours : ℚ)
  | turkeySafety (temp : Nat)
  | rubberSkin
deriving DecidableEq

/-- The type field of a warning object. -/
def Warning.kind : Warning → String
  | .longRest _ _ => "quality"
  | .turkeySafety _ => "safety"
  | .rubberSkin => "quality"

/-- Whether a warning is the long-rest quality warning. -/
def Warning.isLongRest : Warning → Bool
  | .longRest _ _ => true
  | _ => false

/-- The plan record set by the V6 engine (lines 246-256). -/
structure Plan where
  startPrep : ℚ
  startCook : ℚ
  wrapTime : ℚ
  finishCook : ℚ
  serve : ℚ
  spritzWindow : Option SpritzWindow
  totalCookHours : ℚ   -- the source formats this with toFixed(1)
  affiliateMode : String
  isPoultry : Bool
deriving DecidableEq

/-- The pair of states set by one run of the V6 engine. -/
structure EngineResult where
  plan : Plan
  warnings : List Warning
deriving DecidableEq

/-- The body of the V6 logic-engine effect after its early exits
(lines 157-258), for a parsed serve timestamp. -/
def engineCore (i : Inputs) (serveDate now : ℚ) : EngineResult :=
  let finishCookTime : ℚ := serveDate - i.restTime
  let startCookTime : ℚ := finishCookTime - totalCookMinutes i
  let startPrepTime : ℚ := startCookTime - i.prepTime
  let minutesUntilWrap : ℚ := totalCookMinutes i * wrapTimingFactor i
  let wrapT : ℚ := startCookTime + minutesUntilWrap
  let sw : Option SpritzWindow :=
    if i.spritzEnabled = true ∧ 0 < spritzCount i then
      some { start := startCookTime + i.spritzStart
             stop := if i.wrapStrategy ≠ WrapStrategy.none then wrapT
                     else finishCookTime - 60
             count := spritzCount i
             liquid := (MEAT_PROFILES i.meatType).spritz.liquid }
    else Option.none
  let newWarnings : List Warning :=
    (if i.meatType = MeatType.turkey ∧ 14 < i.weight ∧ i.temp < 275 ∧
        i.isSpatchcock = false
     then [Warning.turkeySafety i.temp] else [])
    ++ (if isPoultry i.meatType = true ∧ i.wrapStrategy = WrapStrategy.none ∧
           i.temp < 275
        then [Warning.rubberSkin] else [])
  let hoursUntilServe : ℤ := ratTrunc ((serveDate - now) / 60)
  { plan :=
    { startPrep := startPrepTime
      startCook := startCookTime
      wrapTime := wrapT
      finishCook := finishCookTime
      serve := serveDate
      spritzWindow := sw
      totalCookHours := totalCookMinutes i / 60
      affiliateMode := if hoursUntilServe < 24 then "instant" else "planning"
      isPoultry := isPoultry i.meatType }
    warnings := newWarnings }

/-- The V6 logic-engine effect (lines 154-260): no result when serveTime
is falsy, when weight is falsy, or when the serve timestamp does not
parse; otherwise the engineCore result. -/
def computePlan (i : Inputs) (now : ℚ) : Option EngineResult :=
  match i.serveTime with
  | .empty => Option.none
  | .invalid _ => Option.none
  | .valid serveDate =>
    if i.weight = 0 then Option.none else some (engineCore i serveDate now)

/-- The component state around the engine: the inputs record and the
plan and warnings states. -/
structure AppState where
  inputs : Inputs
  plan : Option Plan
  warnings : List Warning
deriving DecidableEq

/-- One run of the V6 engine effect on the component state: on an early
exit the effect returns without calling setPlan or setWarnings, leaving
the stored plan and warnings untouched. -/
def engineStep (s : AppState) (now : ℚ) : AppState :=
  match computePlan s.inputs now with
  | Option.none => s
  | some r => { s with plan := some r.plan, warnings := r.warnings }

/-- Editing the inputs and letting the engine effect run. -/
def setInputsAndRun (s : AppState) (i : Inputs) (now : ℚ) : AppState :=
  engineStep { s with inputs := i } now

/-- The insufficient-input conditions: falsy or unparsable serveTime, or
falsy weight. -/
def insufficient (i : Inputs) : Prop :=
  i.serveTime = ServeTimeInput.empty ∨
  (∃ s, i.serveTime = ServeTimeInput.invalid s) ∨
  i.weight = 0

/- ----- The V1 variant (first file of src/unnamed/part_000) ----- -/

/-- Meat-type keys of the V1 MEAT_PROFILES (no chicken). -/
inductive MeatTypeV1
  | brisket
  | porkButt
  | ribs
  | turkey
deriving DecidableEq

/-- One entry of the V1 MEAT_PROFILES. -/
structure MeatProfileV1 where
  label : String
  defaultWeight : ℚ
  tempProfiles : Nat → Option ℚ
  rest : RestSpec
  stallFactor : ℚ

/-- MEAT_PROFILES of the V1 variant (src/unnamed/part_000 lines 8-53). -/
def MEAT_PROFILES_V1 : MeatTypeV1 → MeatProfileV1
  | .brisket =>
    { label := "Brisket (Full Packer)"
      defaultWeight := 12
      tempProfiles := fun t =>
        if t = 225 then some 1.5 else if t = 250 then some 1.25 else
        if t = 275 then some 1.0 else Option.none
      rest := { default := 120, min := 60, maxHold := 300 }
      stallFactor := 0.65 }
  | .porkButt =>
    { label := "Pork Shoulder / Butt"
      defaultWeight := 8
      tempProfiles := fun t =>
        if t = 225 then some 1.5 else if t = 250 then some 1.2 else
        if t = 275 then some 1.0 else Option.none
      rest := { default := 45, min := 30, maxHold := 300 }
      stallFactor := 0.60 }
  | .ribs =>
    { label := "Pork Ribs (3-2-1 or sim)"
      defaultWeight := 3
      tempProfiles := fun t =>
        if t = 225 then some 2.0 else if t = 250 then some 1.75 else
        if t = 275 then some 1.5 else Option.none
      rest := { default := 15, min := 10, maxHold := 60 }
      stallFactor := 0.50 }
  | .turkey =>
    { label := "Turkey Breast (Boneless)"
      defaultWeight := 4
      tempProfiles := fun t =>
        if t = 225 then some 0.75 else if t = 250 then some 0.5 else
        if t = 275 then some 0.4 else Option.none
      rest := { default := 20, min := 15, maxHold := 60 }
      stallFactor := 0.80 }

/-- The V1 inputs record (src/unnamed/part_000 lines 72-79). -/
structure InputsV1 where
  meatType : MeatTypeV1
  weight : ℚ
  temp : Nat
  restTime : ℚ
  serveTime : ServeTimeInput
  prepTime : ℚ
deriving DecidableEq

/-- The plan record set by the V1 engine (lines 131-139). -/
structure PlanV1 where
  startPrep : ℚ
  startCook : ℚ
  stallStart : ℚ
  finishCook : ℚ
  serve : ℚ
  totalCookHours : ℚ
  affiliateMode : String
deriving DecidableEq

/-- The pair of states set by one run of the V1 engine. -/
structure EngineResultV1 where
  plan : PlanV1
  warnings : List Warning
deriving DecidableEq

/-- The V1 logic-engine effect (src/unnamed/part_000 lines 100-143).
The V1 rate lookup has no fallback: on a temperature absent from the
profile the source dereferences undefined and throws, so no plan is
produced; that is modelled as the Option.none branch of the lookup. -/
def computePlanV1 (i : InputsV1) (now : ℚ) : Option EngineResultV1 :=
  match i.serveTime with
  | .empty => Option.none
  | .invalid _ => Option.none
  | .valid serveDate =>
    if i.weight = 0 then Option.none else
    match (MEAT_PROFILES_V1 i.meatType).tempProfiles i.temp with
    | Option.none => Option.none
    | some rate =>
      let baseHrs : ℚ := i.weight * rate
      let bufferHrs : ℚ := baseHrs * 0.15
      let totalMins : ℚ := (baseHrs + bufferHrs) * 60
      let finishCookTime : ℚ := serveDate - i.restTime
      let startCookTime : ℚ := finishCookTime - totalMins
      let startPrepTime : ℚ := startCookTime - i.prepTime
      let stallTime : ℚ :=
        startCookTime + totalMins * (MEAT_PROFILES_V1 i.meatType).stallFactor
      let ws : List Warning :=
        if (MEAT_PROFILES_V1 i.meatType).rest.maxHold < i.restTime then
          [Warning.longRest (MEAT_PROFILES_V1 i.meatType).label
            ((MEAT_PROFILES_V1 i.meatType).rest.maxHold / 60)]
        else []
      let hoursUntilServe : ℤ := ratTrunc ((serveDate - now) / 60)
      some
        { plan :=
          { startPrep := startPrepTime
            startCook := startCookTime
            stallStart := stallTime
            finishCook := finishCookTime
            serve := serveDate
            totalCookHours := totalMins / 60
            affiliateMode := if hoursUntilServe < 24 then "instant"
                             else "planning" }
          warnings := ws }

/- ----- Concrete inputs and results used by the theorems below ----- -/

/-- A clean valid input: brisket, 8 lb, a temperature (230) absent from
the brisket tempProfiles (so the fallback rate 1.0 applies), tight foil
wrap, spritz disabled, serve timestamp 1000 minutes, zero rest and prep.
Cook duration: 8 h base, times 1.15 buffer, equals 552 minutes. -/
def iClean : Inputs :=
  { meatType := MeatType.brisket, weight := 8, temp := 230, restTime := 0,
    serveTime := ServeTimeInput.valid 1000, prepTime := 0,
    wrapStrategy := WrapStrategy.foil, wrapTemp := 165, targetTemp := 203,
    spritzEnabled := false, spritzStart := 120, spritzInterval := 60,
    isSpatchcock := false, fatSideUp := false }

/-- The engine result at iClean. -/
def iCleanResultA : EngineResult :=
  { plan :=
    { startPrep := 448, startCook := 448, wrapTime := 4103/5,
      finishCook := 1000, serve := 1000, spritzWindow := Option.none,
      totalCookHours := 46/5, affiliateMode := "instant",
      isPoultry := false }
    warnings := [] }

/-- The engine result at iClean, a second copy for a separate witness. -/
def iCleanResultB : EngineResult :=
  { plan :=
    { startPrep := 448, startCook := 448, wrapTime := 4103/5,
      finishCook := 1000, serve := 1000, spritzWindow := Option.none,
      totalCookHours := 46/5, affiliateMode := "instant",
      isPoultry := false }
    warnings := [] }

/-- Scenario A of the specification: pork butt, 8 lb, 250 F, foil-pan
wrap, spritz disabled, rest 45, prep 45.  The serve time
2024-01-01T18:00 is encoded as minute 1080 of the serve day. -/
def scenarioA : Inputs :=
  { meatType := MeatType.porkButt, weight := 8, temp := 250, restTime := 45,
    serveTime := ServeTimeInput.valid 1080, prepTime := 45,
    wrapStrategy := WrapStrategy.foil_pan, wrapTemp := 165, targetTemp := 205,
    spritzEnabled := false, spritzStart := 120, spritzInterval := 60,
    isSpatchcock := false, fatSideUp := false }

/-- An input meeting every condition stated by claim C1 (parsable
serveTime, nonzero weight, catalog meat and wrap strategy, nonnegative
rest and prep) on which the timestamp chain still fails: chicken
(stallFactor 0.85) with wrapTemp 250 gives
wrapTimingFactor 0.85 + 90 x 0.005 = 1.3 > 1. -/
def c1cx : Inputs :=
  { meatType := MeatType.chicken, weight := 5, temp := 250, restTime := 0,
    serveTime := ServeTimeInput.valid 0, prepTime := 0,
    wrapStrategy := WrapStrategy.foil, wrapTemp := 250, targetTemp := 165,
    spritzEnabled := false, spritzStart := 45, spritzInterval := 45,
    isSpatchcock := false, fatSideUp := false }

/-- The engine result at c1cx: the cook is 207 minutes, and the wrap
factor 1.3 puts wrapTime 62.1 minutes after finishCook. -/
def c1cxResult : EngineResult :=
  { plan :=
    { startPrep := -207, startCook := -207, wrapTime := 621/10,
      finishCook := 0, serve := 0, spritzWindow := Option.none,
      totalCookHours := 69/20, affiliateMode := "instant",
      isPoultry := true }
    warnings := [] }

/-- Scenario A with restTime 301, above the pork-butt maxHold of 300. -/
def c3cx : Inputs := { scenarioA with restTime := 301 }

/-- The V6 engine result at c3cx: its warning list is empty. -/
def c3cxResult : EngineResult :=
  { plan :=
    { startPrep := 3929/25, startCook := 5054/25, wrapTime := 112537/200,
      finishCook := 779, serve := 1080, spritzWindow := Option.none,
      totalCookHours := 4807/500, affiliateMode := "instant",
      isPoultry := false }
    warnings := [] }

/-- iClean with no wrap and wrapTemp 170. -/
def i5a : Inputs := { iClean with wrapStrategy := WrapStrategy.none, wrapTemp := 170 }

/-- i5a with wrapTemp 180 instead: differs from i5a only in wrapTemp. -/
def i5b : Inputs := { i5a with wrapTemp := 180 }

/-- The engine result at i5a: without a wrap strategy the wrapTemp is
ignored, so wrapTime is startCook plus stallFactor times the duration. -/
def c5cxR1 : EngineResult :=
  { plan :=
    { startPrep := 310, startCook := 310, wrapTime := 1517/2,
      finishCook := 1000, serve := 1000, spritzWindow := Option.none,
      totalCookHours := 23/2, affiliateMode := "instant",
      isPoultry := false }
    warnings := [] }

/-- The engine result at i5b, identical to the one at i5a. -/
def c5cxR2 : EngineResult :=
  { plan :=
    { startPrep := 310, startCook := 310, wrapTime := 1517/2,
      finishCook := 1000, serve := 1000, spritzWindow := Option.none,
      totalCookHours := 23/2, affiliateMode := "instant",
      isPoultry := false }
    warnings := [] }

/-- The engine result at iClean with wrapTemp 170. -/
def c5r1 : EngineResult :=
  { plan :=
    { startPrep := 448, startCook := 448, wrapTime := 4172/5,
      finishCook := 1000, serve := 1000, spritzWindow := Option.none,
      totalCookHours := 46/5, affiliateMode := "instant",
      isPoultry := false }
    warnings := [] }

/-- The engine result at iClean with wrapTemp 180. -/
def c5r2 : EngineResult :=
  { plan :=
    { startPrep := 448, startCook := 448, wrapTime := 862,
      finishCook := 1000, serve := 1000, spritzWindow := Option.none,
      totalCookHours := 46/5, affiliateMode := "instant",
      isPoultry := false }
    warnings := [] }

/-- iClean with the serve-time field cleared to the empty string. -/
def i7 : Inputs := { iClean with serveTime := ServeTimeInput.empty }

/-- A V1 input with restTime 301, above the pork-butt maxHold of 300. -/
def iv1 : InputsV1 :=
  { meatType := MeatTypeV1.porkButt, weight := 8, temp := 250,
    restTime := 301, serveTime := ServeTimeInput.valid 1080, prepTime := 45 }

/-- The V1 engine result at iv1. -/
def rv1 : EngineResultV1 :=
  { plan :=
    { startPrep := 358/5, startCook := 583/5, stallStart := 12851/25,
      finishCook := 779, serve := 1080, totalCookHours := 276/25,
      affiliateMode := "instant" }
    warnings := [Warning.longRest "Pork Shoulder / Butt" 5] }

/-- A stored plan from some earlier computation. -/
def p9 : Plan :=
  { startPrep := 448, startCook := 448, wrapTime := 4103/5,
    finishCook := 1000, serve := 1000, spritzWindow := Option.none,
    totalCookHours := 46/5, affiliateMode := "instant", isPoultry := false }

/-- A component state holding a previously computed plan and warnings. -/
def s9 : AppState :=
  { inputs := iClean, plan := some p9, warnings := [Warning.rubberSkin] }

/-- iClean with the serve-time field cleared, for the C9 witness. -/
def i9 : Inputs := { iClean with serveTime := ServeTimeInput.empty }

/- ----- Helper lemmas ----- -/

/-- Insufficient input yields no engine result. -/
theorem no_result_aux (i : Inputs) (now : ℚ) (h : insufficient i) :
    computePlan i now = Option.none := by
  rcases h with h | ⟨s, h⟩ | h
  · unfold computePlan
    rw [h]
  · unfold computePlan
    rw [h]
  · unfold computePlan
    cases hs : i.serveTime with
    | empty => rfl
    | invalid s => rfl
    | valid t =>
      dsimp only
      rw [if_pos h]

/-- Inversion: an engine result means a parsed serve time, nonzero
weight, and the engineCore output. -/
theorem computePlan_some_inv (i : Inputs) (now : ℚ) (r : EngineResult)
    (h : computePlan i now = some r) :
    ∃ t, i.serveTime = ServeTimeInput.valid t ∧ i.weight ≠ 0 ∧
      r = engineCore i t now := by
  unfold computePlan at h
  cases hs : i.serveTime with
  | empty => rw [hs] at h; exact absurd h (by simp)
  | invalid s => rw [hs] at h; exact absurd h (by simp)
  | valid t =>
    rw [hs] at h
    dsimp only at h
    by_cases hw : i.weight = 0
    · rw [if_pos hw] at h
      exact absurd h (by simp)
    · rw [if_neg hw] at h
      refine ⟨t, rfl, hw, ?_⟩
      injection h with h'
      exact h'.symm

/-- Every rate in every meat profile is positive, so the looked-up rate
with its 1.0 fallback is positive. -/
theorem tempRate_pos (m : MeatType) (t : Nat) :
    0 < ((MEAT_PROFILES m).tempProfiles t).getD 1.0 := by
  cases m <;> dsimp only [MEAT_PROFILES] <;> split_ifs <;>
    simp only [Option.getD_some, Option.getD_none] <;> norm_num

/-- The rate used by the engine is positive. -/
theorem rateOf_pos (i : Inputs) : 0 < rateOf i :=
  tempRate_pos i.meatType i.temp

/-- Every wrap multiplier is positive. -/
theorem wrapMultiplier_pos (w : WrapStrategy) :
    0 < (WRAP_STRATEGIES w).multiplier := by
  cases w <;> norm_num [WRAP_STRATEGIES]

/-- Every stall factor is positive. -/
theorem stallFactor_pos (m : MeatType) : 0 < (MEAT_PROFILES m).stallFactor := by
  cases m <;> norm_num [MEAT_PROFILES]

/-- Positive weight gives positive base cook hours. -/
theorem baseCookHours_pos (i : Inputs) (hw : 0 < i.weight) :
    0 < baseCookHours i := by
  unfold baseCookHours
  have hr := rateOf_pos i
  split_ifs
  · nlinarith
  · exact mul_pos hw hr

/-- With a positive spritz interval the spritz count is nonnegative. -/
theorem spritzCount_nonneg (i : Inputs) (hint : 0 < i.spritzInterval) :
    0 ≤ spritzCount i := by
  unfold spritzCount
  split_ifs with h1 h2
  · exact Int.floor_nonneg.mpr (div_nonneg (le_of_lt h2) (le_of_lt hint))
  · exact le_refl 0
  · exact le_refl 0

/-- With a positive spritz interval the spritz penalty is nonnegative. -/
theorem spritzPenalty_nonneg (i : Inputs) (hint : 0 < i.spritzInterval) :
    0 ≤ spritzPenaltyHours i := by
  unfold spritzPenaltyHours
  have h := spritzCount_nonneg i hint
  have h' : (0 : ℚ) ≤ (spritzCount i : ℚ) := by exact_mod_cast h
  apply div_nonneg _ (by norm_num)
  exact mul_nonneg h' (by norm_num)

/-- Positive weight and positive spritz interval give a positive total
cook duration. -/
theorem totalCookMinutes_pos (i : Inputs) (hw : 0 < i.weight)
    (hint : 0 < i.spritzInterval) : 0 < totalCookMinutes i := by
  have hb := baseCookHours_pos i hw
  have hm := wrapMultiplier_pos i.wrapStrategy
  have hpre : 0 < preSpritzHours i := mul_pos hb hm
  have hpen := spritzPenalty_nonneg i hint
  have hadj : 0 < adjustedCookHours i := by
    unfold adjustedCookHours; linarith
  unfold totalCookMinutes bufferHours
  nlinarith

/-- The wrap timing factor is positive. -/
theorem wrapTimingFactor_pos (i : Inputs) : 0 < wrapTimingFactor i := by
  unfold wrapTimingFactor
  have hs := stallFactor_pos i.meatType
  split_ifs with h1 h2
  · have : (0 : ℚ) ≤ (i.wrapTemp - 160) * 0.005 :=
      mul_nonneg (le_of_lt h2) (by norm_num)
    linarith
  · exact hs
  · exact hs

/- ----- Claim theorems ----- -/

/-- C1 counterexample: c1cx satisfies every condition the claim states
(parsable serveTime, nonzero weight, catalog meatType and wrapStrategy,
nonnegative restTime and prepTime) and produces a plan, yet that plan
violates wrapTime less-or-equal finishCook, because chicken with
wrapTemp 250 gives wrapTimingFactor 1.3 above 1. -/
theorem c1_counterexample :
    0 < c1cx.weight ∧ 0 ≤ c1cx.restTime ∧ 0 ≤ c1cx.prepTime ∧
    computePlan c1cx 0 = some c1cxResult ∧
    c1cxResult.plan.finishCook < c1cxResult.plan.wrapTime := by
  refine ⟨by norm_num [c1cx], by norm_num [c1cx], by norm_num [c1cx], ?_, ?_⟩
  · norm_num [computePlan, engineCore, c1cx, c1cxResult, totalCookMinutes,
      adjustedCookHours, bufferHours, preSpritzHours, baseCookHours,
      spritzPenaltyHours, spritzCount, rateOf, wrapMod, wrapTimingFactor,
      isPoultry, MEAT_PROFILES, WRAP_STRATEGIES, ratTrunc,
      show WrapStrategy.foil ≠ WrapStrategy.none from by decide]
  · norm_num [c1cxResult]

/-- C1 (amended): for inputs that produce a plan with positive weight,
nonnegative restTime and prepTime, positive spritzInterval, and a wrap
timing factor at most 1, the five plan timestamps satisfy
startPrep at most startCook, startCook strictly below wrapTime,
wrapTime at most finishCook, finishCook at most serve. -/
theorem c1_timestamp_ordering (i : Inputs) (now : ℚ) (r : EngineResult)
    (h : computePlan i now = some r)
    (hw : 0 < i.weight) (hrest : 0 ≤ i.restTime) (hprep : 0 ≤ i.prepTime)
    (hint : 0 < i.spritzInterval) (hwf : wrapTimingFactor i ≤ 1) :
    r.plan.startPrep ≤ r.plan.startCook ∧
    r.plan.startCook < r.plan.wrapTime ∧
    r.plan.wrapTime ≤ r.plan.finishCook ∧
    r.plan.finishCook ≤ r.plan.serve := by
  obtain ⟨t, hs, hw0, hr⟩ := computePlan_some_inv i now r h
  subst hr
  have htot : 0 < totalCookMinutes i := totalCookMinutes_pos i hw hint
  have hwtf : 0 < wrapTimingFactor i := wrapTimingFactor_pos i
  refine ⟨?_, ?_, ?_, ?_⟩
  · show t - i.restTime - totalCookMinutes i - i.prepTime ≤
      t - i.restTime - totalCookMinutes i
    linarith
  · show t - i.restTime - totalCookMinutes i <
      t - i.restTime - totalCookMinutes i +
        totalCookMinutes i * wrapTimingFactor i
    nlinarith
  · show t - i.restTime - totalCookMinutes i +
        totalCookMinutes i * wrapTimingFactor i ≤ t - i.restTime
    have h3 : totalCookMinutes i * wrapTimingFactor i ≤
        totalCookMinutes i * 1 :=
      mul_le_mul_of_nonneg_left hwf (le_of_lt htot)
    rw [mul_one] at h3
    linarith
  · show t - i.restTime ≤ t
    linarith

/-- Witness for c1_timestamp_ordering at iClean. -/
theorem c1_timestamp_ordering_witness :
    computePlan iClean 0 = some iCleanResultA ∧
    (iCleanResultA.plan.startPrep ≤ iCleanResultA.plan.startCook ∧
     iCleanResultA.plan.startCook < iCleanResultA.plan.wrapTime ∧
     iCleanResultA.plan.wrapTime ≤ iCleanResultA.plan.finishCook ∧
     iCleanResultA.plan.finishCook ≤ iCleanResultA.plan.serve) := by
  have he : computePlan iClean 0 = some iCleanResultA := by
    norm_num [computePlan, engineCore, iClean, iCleanResultA, totalCookMinutes,
      adjustedCookHours, bufferHours, preSpritzHours, baseCookHours,
      spritzPenaltyHours, spritzCount, rateOf, wrapMod, wrapTimingFactor,
      isPoultry, MEAT_PROFILES, WRAP_STRATEGIES, ratTrunc,
      show WrapStrategy.foil ≠ WrapStrategy.none from by decide]
  exact ⟨he,
    c1_timestamp_ordering iClean 0 iCleanResultA he (by norm_num [iClean])
      (by norm_num [iClean]) (by norm_num [iClean]) (by norm_num [iClean])
      (by norm_num [wrapTimingFactor, iClean, MEAT_PROFILES,
        show WrapStrategy.foil ≠ WrapStrategy.none from by decide])⟩

/-- C2: whenever the engine produces a plan, finishCook equals
serve minus restTime and startCook equals finishCook minus
totalCookMinutes, exactly over the rational timeline, and adding
totalCookMinutes and restTime back to startCook recovers the serve
timestamp, also when totalCookMinutes is fractional. -/
theorem c2_backward_derivation (i : Inputs) (now : ℚ) (r : EngineResult)
    (h : computePlan i now = some r) :
    r.plan.finishCook = r.plan.serve - i.restTime ∧
    r.plan.startCook = r.plan.finishCook - totalCookMinutes i ∧
    r.plan.startCook + totalCookMinutes i + i.restTime = r.plan.serve := by
  obtain ⟨t, hs, hw0, hr⟩ := computePlan_some_inv i now r h
  subst hr
  refine ⟨rfl, rfl, ?_⟩
  show t - i.restTime - totalCookMinutes i + totalCookMinutes i +
    i.restTime = t
  ring

/-- Witness for c2_backward_derivation at iClean. -/
theorem c2_backward_derivation_witness :
    computePlan iClean 0 = some iCleanResultB ∧
    (iCleanResultB.plan.finishCook =
       iCleanResultB.plan.serve - iClean.restTime ∧
     iCleanResultB.plan.startCook =
       iCleanResultB.plan.finishCook - totalCookMinutes iClean ∧
     iCleanResultB.plan.startCook + totalCookMinutes iClean +
       iClean.restTime = iCleanResultB.plan.serve) := by
  have he : computePlan iClean 0 = some iCleanResultB := by
    norm_num [computePlan, engineCore, iClean, iCleanResultB, totalCookMinutes,
      adjustedCookHours, bufferHours, preSpritzHours, baseCookHours,
      spritzPenaltyHours, spritzCount, rateOf, wrapMod, wrapTimingFactor,
      isPoultry, MEAT_PROFILES, WRAP_STRATEGIES, ratTrunc,
      show WrapStrategy.foil ≠ WrapStrategy.none from by decide]
  exact ⟨he, c2_backward_derivation iClean 0 iCleanResultB he⟩

/-- C3 counterexample: on the V6 engine, c3cx has restTime 301 above the
pork-butt maxHold 300 and produces a plan, yet its warning list is empty,
so it contains no long-rest quality warning: the V6 engine has no
long-rest rule. -/
theorem c3_counterexample :
    (MEAT_PROFILES c3cx.meatType).rest.maxHold < c3cx.restTime ∧
    computePlan c3cx 0 = some c3cxResult ∧
    c3cxResult.warnings = [] := by
  refine ⟨by norm_num [c3cx, scenarioA, MEAT_PROFILES], ?_, rfl⟩
  norm_num [computePlan, engineCore, c3cx, scenarioA, c3cxResult,
    totalCookMinutes, adjustedCookHours, bufferHours, preSpritzHours,
    baseCookHours, spritzPenaltyHours, spritzCount, rateOf, wrapMod,
    wrapTimingFactor, isPoultry, MEAT_PROFILES, WRAP_STRATEGIES, ratTrunc,
    show WrapStrategy.foil_pan ≠ WrapStrategy.none from by decide]

/-- C3 (amended): in the V1 engine of src/unnamed/part_000, whenever a
plan is produced and restTime exceeds the profile maxHold, the warning
list contains the long-rest warning naming maxHold/60 hours, and its
type is quality. -/
theorem c3_long_rest_v1 (i : InputsV1) (now : ℚ) (r : EngineResultV1)
    (h : computePlanV1 i now = some r)
    (hrest : (MEAT_PROFILES_V1 i.meatType).rest.maxHold < i.restTime) :
    Warning.longRest (MEAT_PROFILES_V1 i.meatType).label
        ((MEAT_PROFILES_V1 i.meatType).rest.maxHold / 60) ∈ r.warnings ∧
    (Warning.longRest (MEAT_PROFILES_V1 i.meatType).label
        ((MEAT_PROFILES_V1 i.meatType).rest.maxHold / 60)).kind =
      "quality" := by
  unfold computePlanV1 at h
  cases hs : i.serveTime with
  | empty => rw [hs] at h; exact absurd h (by simp)
  | invalid s => rw [hs] at h; exact absurd h (by simp)
  | valid t =>
    rw [hs] at h
    dsimp only at h
    by_cases hw : i.weight = 0
    · rw [if_pos hw] at h
      exact absurd h (by simp)
    · rw [if_neg hw] at h
      cases hl : (MEAT_PROFILES_V1 i.meatType).tempProfiles i.temp with
      | none => rw [hl] at h; exact absurd h (by simp)
      | some rate =>
        rw [hl] at h
        dsimp only at h
        injection h with h'
        constructor
        · rw [← h']
          show Warning.longRest (MEAT_PROFILES_V1 i.meatType).label
              ((MEAT_PROFILES_V1 i.meatType).rest.maxHold / 60) ∈
            (if (MEAT_PROFILES_V1 i.meatType).rest.maxHold < i.restTime
             then [Warning.longRest (MEAT_PROFILES_V1 i.meatType).label
                ((MEAT_PROFILES_V1 i.meatType).rest.maxHold / 60)]
             else [])
          rw [if_pos hrest]
          exact List.mem_singleton_self _
        · rfl

/-- Witness for c3_long_rest_v1 at iv1. -/
theorem c3_long_rest_v1_witness :
    computePlanV1 iv1 0 = some rv1 ∧
    (Warning.longRest (MEAT_PROFILES_V1 iv1.meatType).label
        ((MEAT_PROFILES_V1 iv1.meatType).rest.maxHold / 60) ∈ rv1.warnings ∧
     (Warning.longRest (MEAT_PROFILES_V1 iv1.meatType).label
        ((MEAT_PROFILES_V1 iv1.meatType).rest.maxHold / 60)).kind =
       "quality") := by
  have he : computePlanV1 iv1 0 = some rv1 := by
    norm_num [computePlanV1, iv1, rv1, MEAT_PROFILES_V1, ratTrunc]
  exact ⟨he, c3_long_rest_v1 iv1 0 rv1 he
    (by norm_num [iv1, MEAT_PROFILES_V1])⟩

/-- C4: Scenario A (pork butt, 8 lb, 250 F with rate 1.1, foil-pan wrap
with multiplier 0.95, spritz disabled, serve at minute 1080 of the serve
day, rest 45, prep 45) gives baseHours 8.8, adjustedHours 8.36,
totalCookMinutes 576.84, finishCook at minute 1035 (17:15), startCook at
minute 458.16 (within 0.1 of 07:38.2 = minute 458.2) and startPrep at
minute 413.16 (within 0.1 of 06:53.2 = minute 413.2), all timestamps
inside the serve day. -/
theorem c4_scenario_a :
    baseCookHours scenarioA = 8.8 ∧
    adjustedCookHours scenarioA = 8.36 ∧
    totalCookMinutes scenarioA = 576.84 ∧
    (computePlan scenarioA 0).map (fun r => r.plan.finishCook) =
      some 1035 ∧
    (computePlan scenarioA 0).map (fun r => r.plan.startCook) =
      some (11454/25) ∧
    |(11454/25 : ℚ) - (7 * 60 + 38.2)| ≤ 1/10 ∧
    (computePlan scenarioA 0).map (fun r => r.plan.startPrep) =
      some (10329/25) ∧
    |(10329/25 : ℚ) - (6 * 60 + 53.2)| ≤ 1/10 ∧
    0 ≤ (10329/25 : ℚ) ∧ (1080 : ℚ) < 1440 := by
  norm_num [computePlan, engineCore, scenarioA, totalCookMinutes,
    adjustedCookHours, bufferHours, preSpritzHours, baseCookHours,
    spritzPenaltyHours, spritzCount, rateOf, wrapMod, wrapTimingFactor,
    isPoultry, MEAT_PROFILES, WRAP_STRATEGIES, ratTrunc, abs_le,
    show WrapStrategy.foil_pan ≠ WrapStrategy.none from by decide]

/-- C5 counterexample: i5a and i5b differ only in wrapTemp, both above
160, both produce a plan, yet their wrapTime values are equal because
wrapStrategy is the no-wrap option, which ignores wrapTemp. -/
theorem c5_counterexample :
    i5b = { i5a with wrapTemp := 180 } ∧
    160 < i5a.wrapTemp ∧ i5a.wrapTemp < i5b.wrapTemp ∧
    computePlan i5a 0 = some c5cxR1 ∧
    computePlan i5b 0 = some c5cxR2 ∧
    c5cxR1.plan.wrapTime = c5cxR2.plan.wrapTime := by
  refine ⟨rfl, by norm_num [i5a, iClean], by norm_num [i5a, i5b, iClean],
    ?_, ?_, rfl⟩
  · norm_num [computePlan, engineCore, i5a, iClean, c5cxR1, totalCookMinutes,
      adjustedCookHours, bufferHours, preSpritzHours, baseCookHours,
      spritzPenaltyHours, spritzCount, rateOf, wrapMod, wrapTimingFactor,
      isPoultry, MEAT_PROFILES, WRAP_STRATEGIES, ratTrunc]
  · norm_num [computePlan, engineCore, i5b, i5a, iClean, c5cxR2,
      totalCookMinutes, adjustedCookHours, bufferHours, preSpritzHours,
      baseCookHours, spritzPenaltyHours, spritzCount, rateOf, wrapMod,
      wrapTimingFactor, isPoultry, MEAT_PROFILES, WRAP_STRATEGIES, ratTrunc]

/-- C5 (amended): holding every other input fixed, with a wrap strategy
other than the no-wrap option, positive weight and positive
spritzInterval, raising wrapTemp above 160 strictly raises wrapTime. -/
theorem c5_wrapTemp_monotone (i : Inputs) (now w1 w2 : ℚ)
    (h160 : 160 < w1) (h12 : w1 < w2)
    (hstrat : i.wrapStrategy ≠ WrapStrategy.none)
    (hw : 0 < i.weight) (hint : 0 < i.spritzInterval)
    (r1 r2 : EngineResult)
    (h1 : computePlan { i with wrapTemp := w1 } now = some r1)
    (h2 : computePlan { i with wrapTemp := w2 } now = some r2) :
    r1.plan.wrapTime < r2.plan.wrapTime := by
  obtain ⟨t1, hs1, hw1, hr1⟩ := computePlan_some_inv _ _ _ h1
  obtain ⟨t2, hs2, hw2, hr2⟩ := computePlan_some_inv _ _ _ h2
  have he : ServeTimeInput.valid t1 = ServeTimeInput.valid t2 :=
    hs1.symm.trans hs2
  injection he with ht
  subst ht
  subst hr1
  subst hr2
  have hwtf : ∀ w : ℚ, 160 < w →
      wrapTimingFactor { i with wrapTemp := w } =
      (MEAT_PROFILES i.meatType).stallFactor + (w - 160) * 0.005 := by
    intro w hw160
    unfold wrapTimingFactor
    rw [if_pos (show ({ i with wrapTemp := w } : Inputs).wrapStrategy ≠
          WrapStrategy.none from hstrat),
        if_pos (show (0 : ℚ) < ({ i with wrapTemp := w } : Inputs).wrapTemp -
          160 by show (0:ℚ) < w - 160; linarith)]
  have hwt : ∀ w : ℚ,
      (engineCore { i with wrapTemp := w } t1 now).plan.wrapTime =
      t1 - i.restTime - totalCookMinutes i +
        totalCookMinutes i * wrapTimingFactor { i with wrapTemp := w } :=
    fun w => rfl
  rw [hwt w1, hwt w2, hwtf w1 h160, hwtf w2 (lt_trans h160 h12)]
  have htot : 0 < totalCookMinutes i := totalCookMinutes_pos i hw hint
  nlinarith [mul_pos htot (sub_pos.mpr h12)]

/-- Witness for c5_wrapTemp_monotone at iClean with wrapTemps 170, 180. -/
theorem c5_wrapTemp_monotone_witness :
    computePlan { iClean with wrapTemp := 170 } 0 = some c5r1 ∧
    computePlan { iClean with wrapTemp := 180 } 0 = some c5r2 ∧
    c5r1.plan.wrapTime < c5r2.plan.wrapTime := by
  have h1 : computePlan { iClean with wrapTemp := 170 } 0 = some c5r1 := by
    norm_num [computePlan, engineCore, iClean, c5r1, totalCookMinutes,
      adjustedCookHours, bufferHours, preSpritzHours, baseCookHours,
      spritzPenaltyHours, spritzCount, rateOf, wrapMod, wrapTimingFactor,
      isPoultry, MEAT_PROFILES, WRAP_STRATEGIES, ratTrunc,
      show WrapStrategy.foil ≠ WrapStrategy.none from by decide]
  have h2 : computePlan { iClean with wrapTemp := 180 } 0 = some c5r2 := by
    norm_num [computePlan, engineCore, iClean, c5r2, totalCookMinutes,
      adjustedCookHours, bufferHours, preSpritzHours, baseCookHours,
      spritzPenaltyHours, spritzCount, rateOf, wrapMod, wrapTimingFactor,
      isPoultry, MEAT_PROFILES, WRAP_STRATEGIES, ratTrunc,
      show WrapStrategy.foil ≠ WrapStrategy.none from by decide]
  exact ⟨h1, h2,
    c5_wrapTemp_monotone iClean 0 170 180 (by norm_num) (by norm_num)
      (by decide) (by norm_num [iClean]) (by norm_num [iClean])
      c5r1 c5r2 h1 h2⟩

/-- C6: for every meat type, handleMeatChange on any prior inputs sets
weight, restTime, targetTemp, spritzStart and spritzInterval to exactly
the defaults of that meat profile. -/
theorem c6_meat_change_defaults (t : MeatType) (prev : Inputs) :
    (handleMeatChange t prev).weight = (MEAT_PROFILES t).defaultWeight ∧
    (handleMeatChange t prev).restTime = (MEAT_PROFILES t).rest.default ∧
    (handleMeatChange t prev).targetTemp =
      (MEAT_PROFILES t).defaultTargetTemp ∧
    (handleMeatChange t prev).spritzStart =
      (MEAT_PROFILES t).spritz.startAfter ∧
    (handleMeatChange t prev).spritzInterval =
      (MEAT_PROFILES t).spritz.interval :=
  ⟨rfl, rfl, rfl, rfl, rfl⟩

/-- C7: absent (empty) or unparsable serveTime, or falsy weight, yields
no engine result at all. -/
theorem c7_insufficient_no_result (i : Inputs) (now : ℚ)
    (h : insufficient i) : computePlan i now = Option.none :=
  no_result_aux i now h

/-- Witness for c7_insufficient_no_result at i7. -/
theorem c7_insufficient_no_result_witness :
    computePlan i7 0 = Option.none :=
  c7_insufficient_no_result i7 0 (Or.inl rfl)

/-- C8: for inputs with a parsable serve time and nonzero weight, the
rate used is exactly the tempProfiles entry when the temperature is a
key, exactly the fallback 1.0 when it is not, and the engine produces a
plan in either case. -/
theorem c8_rate_fallback (i : Inputs) (t : ℚ) (now : ℚ)
    (hs : i.serveTime = ServeTimeInput.valid t) (hw : i.weight ≠ 0) :
    (∀ q, (MEAT_PROFILES i.meatType).tempProfiles i.temp = some q →
       rateOf i = q) ∧
    ((MEAT_PROFILES i.meatType).tempProfiles i.temp = Option.none →
       rateOf i = 1.0) ∧
    (computePlan i now).isSome = true := by
  refine ⟨?_, ?_, ?_⟩
  · intro q hq
    unfold rateOf
    rw [hq]
    rfl
  · intro hq
    unfold rateOf
    rw [hq]
    rfl
  · unfold computePlan
    rw [hs]
    dsimp only
    rw [if_neg hw]
    rfl

/-- Witness for c8_rate_fallback at iClean, whose temperature 230 is not
a brisket tempProfiles key. -/
theorem c8_rate_fallback_witness :
    rateOf iClean = 1.0 ∧ (computePlan iClean 0).isSome = true :=
  ⟨(c8_rate_fallback iClean 1000 0 rfl (by norm_num [iClean])).2.1 rfl,
   (c8_rate_fallback iClean 1000 0 rfl (by norm_num [iClean])).2.2⟩

/-- C9: when the inputs change to an insufficient state, the engine
effect exits early without calling setPlan or setWarnings, so the stored
plan and warnings stay exactly those of the previous computation. -/
theorem c9_prior_result_kept (s : AppState) (i : Inputs) (now : ℚ)
    (h : insufficient i) :
    (setInputsAndRun s i now).plan = s.plan ∧
    (setInputsAndRun s i now).warnings = s.warnings := by
  have hn : computePlan i now = Option.none := no_result_aux i now h
  unfold setInputsAndRun engineStep
  rw [show ({ s with inputs := i } : AppState).inputs = i from rfl, hn]
  exact ⟨rfl, rfl⟩

/-- Witness for c9_prior_result_kept at a state holding a plan. -/
theorem c9_prior_result_kept_witness :
    (setInputsAndRun s9 i9 0).plan = s9.plan ∧
    (setInputsAndRun s9 i9 0).warnings = s9.warnings :=
  c9_prior_result_kept s9 i9 0 (Or.inl rfl)

/-- C10: on every meat change, the poultry types turkey and chicken get
spritzEnabled forced to true although their profiles recommend false,
and wrapStrategy set to the no-wrap option versus foil-pan for the
others; and every meat change also resets wrapTemp to 165, isSpatchcock
and fatSideUp to false, and temp to 275 for turkey, 250 otherwise. -/
theorem c10_meat_change_technique_resets (t : MeatType) (prev : Inputs) :
    (handleMeatChange t prev).wrapStrategy =
      (if isPoultry t then WrapStrategy.none else WrapStrategy.foil_pan) ∧
    (handleMeatChange t prev).spritzEnabled =
      (if isPoultry t then true else (MEAT_PROFILES t).spritz.recommended) ∧
    (MEAT_PROFILES MeatType.turkey).spritz.recommended = false ∧
    (MEAT_PROFILES MeatType.chicken).spritz.recommended = false ∧
    (handleMeatChange t prev).wrapTemp = 165 ∧
    (handleMeatChange t prev).isSpatchcock = false ∧
    (handleMeatChange t prev).fatSideUp = false ∧
    (handleMeatChange t prev).temp =
      (if t = MeatType.turkey then 275 else 250) :=
  ⟨rfl, rfl, rfl, rfl, rfl, rfl, rfl, rfl⟩

end PelletPlanner
